import Mathlib

/-!
Verification of the MentorMind assessment + recommendation core.

The definitions below are a shallow embedding of the Python sources:
  - `backend/app/services/assessment_service.py`   (AssessmentService)
  - `backend/app/services/recommendation_engine.py` (RecommendationEngine, course track)
  - `backend/app/ai/recommendation.py`              (RecommendationEngine, topic track)
  - `backend/app/ai/adaptive_quiz.py`               (AdaptiveQuizEngine)
  - `backend/app/schemas/assessment.py`             (pydantic response schemas)
  - `backend/app/models/assessment.py`              (ORM rows)

The relational store is modelled as lists of rows; SQLAlchemy `filter(...).all()`
becomes `List.filter`, `.first()` becomes `List.find?`, `.limit(k)` becomes
`List.take k`.  Python floats are modelled as `ℚ`: for the arithmetic the code
performs (sums of small weights, `c/t*100` threshold comparisons at 40 and 70,
`int(n*0.4)` for `n` in the validated 1..50 range) double-precision evaluation
agrees exactly with the rational value.  Exceptions are modelled with `Except`.
-/

namespace MentorMind

/-- `QuestionDifficulty` enum of `models/assessment.py`. -/
inductive QuestionDifficulty
  | easy
  | medium
  | hard
deriving DecidableEq, Repr

/-- `CourseLevel` enum of `models/assessment.py`. -/
inductive CourseLevel
  | beginner
  | intermediate
  | advanced
deriving DecidableEq, Repr

/-- `AssessmentStatus` enum of `models/assessment.py`. -/
inductive AssessmentStatus
  | active
  | submitted
deriving DecidableEq, Repr

/-- `Subject` row. -/
structure Subject where
  id : Nat
  name : String
deriving DecidableEq, Repr

/-- `AssessmentQuestion` row. -/
structure Question where
  id : Nat
  subject_id : Nat
  text : String
  options : List String
  correct_index : Nat
  difficulty : QuestionDifficulty
deriving DecidableEq, Repr

/-- `Course` row. -/
structure Course where
  id : Nat
  subject_id : Nat
  title : String
  level : CourseLevel
deriving DecidableEq, Repr

/-- `AssessmentSession` row (`created_at` as an abstract timestamp). -/
structure AssessmentSession where
  id : Nat
  user_id : Nat
  created_at : Nat
  status : AssessmentStatus
  selected_subject_ids : List Nat
  num_questions_per_subject : Nat
deriving DecidableEq, Repr

/-- `AssessmentAnswer` row. -/
structure AssessmentAnswer where
  session_id : Nat
  question_id : Nat
  selected_index : Nat
  is_correct : Bool
deriving DecidableEq, Repr

/-- `User` row (only the fields the core reads). -/
structure User where
  id : Nat
  username : String
deriving DecidableEq, Repr

/-- The relational store, one list of rows per table. -/
structure DB where
  users : List User
  subjects : List Subject
  questions : List Question
  courses : List Course
  sessions : List AssessmentSession
  answers : List AssessmentAnswer
deriving Repr

/-- `db.query(Question).filter(Question.id == qid).first()`. -/
def findQuestion (db : DB) (qid : Nat) : Option Question :=
  db.questions.find? (fun q => q.id == qid)

/-- `db.query(Subject).filter(Subject.id == sid).first()`. -/
def findSubject (db : DB) (sid : Nat) : Option Subject :=
  db.subjects.find? (fun s => s.id == sid)

/-- `db.query(AssessmentSession).filter(AssessmentSession.id == session_id).first()`. -/
def findSession (db : DB) (session_id : Nat) : Option AssessmentSession :=
  db.sessions.find? (fun s => s.id == session_id)

/-- `db.query(Question).filter(Question.subject_id == subject_id).all()`. -/
def questionsForSubject (db : DB) (sid : Nat) : List Question :=
  db.questions.filter (fun q => q.subject_id == sid)

/-- `db.query(Course).filter(Course.subject_id == sid, Course.level == level).all()`. -/
def coursesAtLevel (db : DB) (sid : Nat) (level : CourseLevel) : List Course :=
  db.courses.filter (fun c => c.subject_id == sid && c.level == level)

/-- `db.query(Course).filter(Course.subject_id == sid).all()`. -/
def coursesForSubject (db : DB) (sid : Nat) : List Course :=
  db.courses.filter (fun c => c.subject_id == sid)

/-! ## Stratified sampler (`AssessmentService.get_questions_for_session`) -/

/-- The easy stratum of a subject's question pool. -/
def easyBucket (pool : List Question) : List Question :=
  pool.filter (fun q => q.difficulty == .easy)

/-- The medium stratum of a subject's question pool. -/
def mediumBucket (pool : List Question) : List Question :=
  pool.filter (fun q => q.difficulty == .medium)

/-- The hard stratum of a subject's question pool. -/
def hardBucket (pool : List Question) : List Question :=
  pool.filter (fun q => q.difficulty == .hard)

/-- `easy_count = int(total_questions * 0.4)`.  For every `n` within the
validated request range, `int(n * 0.4)` under IEEE doubles equals `⌊2n/5⌋`. -/
def easyTargetCount (n : Nat) : Nat := 2 * n / 5

/-- `medium_count = int(total_questions * 0.4)`. -/
def mediumTargetCount (n : Nat) : Nat := 2 * n / 5

/-- `hard_count = total_questions - easy_count - medium_count`. -/
def hardTargetCount (n : Nat) : Nat := n - easyTargetCount n - mediumTargetCount n

/-- The type of the `random.sample` stand-in: given a population list and a
draw size it returns the drawn sub-list. -/
def Pick := List Question → Nat → List Question

/-- Contract of Python's `random.sample(xs, k)` for `k ≤ len(xs)`: the draw has
exactly `k` elements, each drawn from `xs`, without replacement. -/
def SampleContract (pick : Pick) : Prop :=
  ∀ xs k, k ≤ xs.length →
    (pick xs k).length = k
    ∧ (∀ q ∈ pick xs k, q ∈ xs)
    ∧ (xs.Nodup → (pick xs k).Nodup)

/-- The three per-stratum draws of `get_questions_for_session`:
`random.sample(bucket, min(target, len(bucket)))` for each difficulty. -/
def stratumSelection (pick : Pick) (pool : List Question) (n : Nat) : List Question :=
  pick (easyBucket pool) (min (easyTargetCount n) (easyBucket pool).length)
    ++ pick (mediumBucket pool) (min (mediumTargetCount n) (mediumBucket pool).length)
    ++ pick (hardBucket pool) (min (hardTargetCount n) (hardBucket pool).length)

/-- `remaining_questions = [q for q in subject_questions if q not in
selected_questions]`. -/
def backfillPool (pick : Pick) (pool : List Question) (n : Nat) : List Question :=
  pool.filter (fun q => !((stratumSelection pick pool n).contains q))

/-- The selection after the shortfall backfill (`if remaining_needed > 0: ...
if remaining_questions: selected_questions.extend(random.sample(...))`). -/
def withBackfill (pick : Pick) (pool : List Question) (n : Nat) : List Question :=
  let selected := stratumSelection pick pool n
  let remaining_needed := n - selected.length
  if remaining_needed > 0 then
    let remaining := backfillPool pick pool n
    if !remaining.isEmpty then
      selected ++ pick remaining (min remaining_needed remaining.length)
    else selected
  else selected

/-- Per-subject body of `get_questions_for_session`: stratified draws, then the
shortfall backfill from not-yet-selected pool questions, then `[:n]`. -/
def sampleQuestionsForSubject (pick : Pick) (pool : List Question) (n : Nat) : List Question :=
  (withBackfill pick pool n).take n

/-- `AssessmentService.get_questions_for_session`: per selected subject, skip
empty pools, otherwise sample stratified questions, and concatenate. -/
def get_questions_for_session (pick : Pick) (db : DB) (session : AssessmentSession) :
    List Question :=
  (session.selected_subject_ids.map (fun sid =>
    let subject_questions := questionsForSubject db sid
    if subject_questions.isEmpty then []
    else sampleQuestionsForSubject pick subject_questions session.num_questions_per_subject)).flatten

/-! ## Scoring path (`AssessmentService.calculate_assessment_results`) -/

/-- Per-subject answers of a session: the SQLAlchemy inner join of
`AssessmentAnswer` with `Question` on `question_id`, filtered by
`session_id` and `Question.subject_id`. -/
def subjectAnswers (db : DB) (session_id sid : Nat) : List AssessmentAnswer :=
  db.answers.filter (fun a =>
    a.session_id == session_id &&
      (match findQuestion db a.question_id with
       | some q => q.subject_id == sid
       | none => false))

/-- `answer.question.difficulty`: the difficulty of the joined question row. -/
def answerQuestionDifficulty (db : DB) (a : AssessmentAnswer) : Option QuestionDifficulty :=
  (findQuestion db a.question_id).map (fun q => q.difficulty)

/-- Difficulty weight used by both weighted-score loops: easy 1, medium 2, hard 3. -/
def difficultyWeight (d : QuestionDifficulty) : Nat :=
  match d with
  | .easy => 1
  | .medium => 2
  | .hard => 3

/-- One iteration of both weighted-score loops:
`if easy: += 1 elif medium: += 2 elif hard: += 3`. -/
def weightedStep (db : DB) (acc : Nat) (a : AssessmentAnswer) : Nat :=
  match answerQuestionDifficulty db a with
  | some .easy => acc + 1
  | some .medium => acc + 2
  | some .hard => acc + 3
  | none => acc

/-- The scoring-path weighted score: the `for answer in correct_answers` loop of
`calculate_assessment_results`. -/
def weightedScoreScoring (db : DB) (answers : List AssessmentAnswer) : Nat :=
  (answers.filter (fun a => a.is_correct)).foldl (weightedStep db) 0

/-- The analysis-path weighted score: the `for answer in subject_answers` loop of
`RecommendationEngine._analyze_subject_performance`, which runs over every
recorded answer (not just the correct ones). -/
def weightedScoreAnalysis (db : DB) (answers : List AssessmentAnswer) : Nat :=
  answers.foldl (weightedStep db) 0

/-- Modelled from the spec: `weighted_score = Σ weight(difficulty) for each
correct answer` (weight(easy)=1, weight(medium)=2, weight(hard)=3). -/
def specWeightPerCorrectAnswer (db : DB) (answers : List AssessmentAnswer) : Nat :=
  ((answers.filter (fun a => a.is_correct)).filterMap
    (fun a => (answerQuestionDifficulty db a).map difficultyWeight)).sum

/-- The same sum taken over every recorded answer, correct or not. -/
def specWeightPerAnswer (db : DB) (answers : List AssessmentAnswer) : Nat :=
  (answers.filterMap (fun a => (answerQuestionDifficulty db a).map difficultyWeight)).sum

/-- Python's `round(x, 1)` on the exact rational value (round half to even). -/
def pythonRound1 (x : ℚ) : ℚ :=
  let y := 10 * x
  let f : ℤ := ⌊y⌋
  let r := y - (f : ℚ)
  if r < 1/2 then (f : ℚ) / 10
  else if 1/2 < r then ((f : ℚ) + 1) / 10
  else if f % 2 = 0 then (f : ℚ) / 10 else ((f : ℚ) + 1) / 10

/-- Level mapping of `calculate_assessment_results`: `percent_correct <= 40` is
beginner, `<= 70` intermediate, otherwise advanced. -/
def levelOfPercentAssessment (p : ℚ) : CourseLevel :=
  if p ≤ 40 then .beginner
  else if p ≤ 70 then .intermediate
  else .advanced

/-- `RecommendationEngine._get_recommended_level`. -/
def get_recommended_level (p : ℚ) : CourseLevel :=
  if p ≤ 40 then .beginner
  else if p ≤ 70 then .intermediate
  else .advanced

/-- `RecommendationEngine._calculate_performance_level`. -/
def calculate_performance_level (p : ℚ) : String :=
  if p ≤ 40 then "weak"
  else if p ≤ 70 then "moderate"
  else "strong"

/-- Course fallback of `calculate_assessment_results`: query `(subject, level)`;
if empty, beginner tries intermediate, intermediate tries beginner, advanced
tries intermediate; if still empty, any course of the subject, `LIMIT 3`. -/
def recommendedCoursesAssessment (db : DB) (sid : Nat) (level : CourseLevel) : List Course :=
  let atLevel := coursesAtLevel db sid level
  if !atLevel.isEmpty then atLevel
  else
    let fb :=
      match level with
      | .beginner => coursesAtLevel db sid .intermediate
      | .intermediate => coursesAtLevel db sid .beginner
      | .advanced => coursesAtLevel db sid .intermediate
    if !fb.isEmpty then fb
    else (coursesForSubject db sid).take 3

/-- Course fallback of `RecommendationEngine._generate_recommendations`: query
`(subject, level)` with `LIMIT num`; if empty, beginner and advanced try
intermediate, but there is no branch for intermediate; if still empty, any
course of the subject with `LIMIT num`. -/
def recommendedCoursesRec (db : DB) (sid : Nat) (level : CourseLevel) (num : Nat) : List Course :=
  let r0 := (coursesAtLevel db sid level).take num
  if !r0.isEmpty then r0
  else
    let r1 :=
      match level with
      | .beginner => (coursesAtLevel db sid .intermediate).take num
      | .advanced => (coursesAtLevel db sid .intermediate).take num
      | .intermediate => r0
    if !r1.isEmpty then r1
    else (coursesForSubject db sid).take num

/-- `SubjectResult` pydantic schema. -/
structure SubjectResult where
  subject_id : Nat
  subject_name : String
  percent_correct : ℚ
  weighted_score : Nat
  level : CourseLevel
  recommended_courses : List Course
deriving DecidableEq, Repr

/-- Body of the per-subject loop of `calculate_assessment_results`: `none` when
the subject row is missing or the subject has no recorded answers (both are
skipped with `continue`). -/
def calculateSubjectResult (db : DB) (session : AssessmentSession) (sid : Nat) :
    Option SubjectResult :=
  match findSubject db sid with
  | none => none
  | some subject =>
    let sAnswers := subjectAnswers db session.id sid
    if sAnswers.isEmpty then none
    else
      let total := sAnswers.length
      let correct := sAnswers.filter (fun a => a.is_correct)
      let percent : ℚ := ((correct.length : ℚ) / (total : ℚ)) * 100
      let level := levelOfPercentAssessment percent
      some
        { subject_id := sid
          subject_name := subject.name
          percent_correct := pythonRound1 percent
          weighted_score := weightedScoreScoring db sAnswers
          level := level
          recommended_courses := recommendedCoursesAssessment db sid level }

/-- `AssessmentResult` pydantic schema (`created_at` omitted; it is copied
verbatim from the session row). -/
structure AssessmentResult where
  session_id : Nat
  status : AssessmentStatus
  results : List SubjectResult
deriving DecidableEq, Repr

/-- `AssessmentService.calculate_assessment_results`. -/
def calculate_assessment_results (db : DB) (session : AssessmentSession) : AssessmentResult :=
  { session_id := session.id
    status := session.status
    results := session.selected_subject_ids.filterMap (calculateSubjectResult db session) }

/-! ## Submission (`AssessmentService.submit_assessment_answers`) -/

/-- Error kinds raised by `submit_assessment_answers` (both as `ValueError`). -/
inductive SubmitError
  | sessionNotFound
  | sessionNotActive
deriving DecidableEq, Repr

/-- One element of the submitted `answers` list. -/
structure AnswerSubmission where
  question_id : Nat
  selected_index : Nat
deriving DecidableEq, Repr

/-- `AssessmentService.submit_assessment_answers`: resolve the session by id
only (no ownership filter), reject non-active sessions, grade and persist every
answer whose question resolves (unknown question ids are skipped with
`continue`), flip the status to submitted, and compute the results. -/
def submit_assessment_answers (db : DB) (session_id : Nat)
    (answers : List AnswerSubmission) : Except SubmitError (DB × AssessmentResult) :=
  match findSession db session_id with
  | none => .error .sessionNotFound
  | some session =>
    if session.status ≠ .active then .error .sessionNotActive
    else
      let newAnswers := answers.filterMap (fun ad =>
        match findQuestion db ad.question_id with
        | none => none
        | some q =>
          some { session_id := session_id
                 question_id := ad.question_id
                 selected_index := ad.selected_index
                 is_correct := ad.selected_index == q.correct_index })
      let session' := { session with status := .submitted }
      let db' :=
        { db with
          answers := db.answers ++ newAnswers
          sessions := db.sessions.map (fun s => if s.id == session_id then session' else s) }
      .ok (db', calculate_assessment_results db' session')

/-! ## Latest results (`AssessmentService.get_latest_assessment_results`) -/

/-- Error kind of `get_latest_assessment_results` (a `ValueError` mapped to 404). -/
inductive ResultsError
  | noAssessmentFound
deriving DecidableEq, Repr

/-- `db.query(AssessmentSession).filter(user_id, status == SUBMITTED)`. -/
def submittedSessionsOf (db : DB) (user_id : Nat) : List AssessmentSession :=
  db.sessions.filter (fun s => s.user_id == user_id && s.status == .submitted)

/-- `...order_by(created_at.desc()).first()`: the submitted session of the user
with the greatest timestamp (earlier row wins ties). -/
def latestSubmittedSession (db : DB) (user_id : Nat) : Option AssessmentSession :=
  (submittedSessionsOf db user_id).foldl
    (fun acc s =>
      match acc with
      | none => some s
      | some b => if b.created_at < s.created_at then some s else some b)
    none

/-- `AssessmentService.get_latest_assessment_results`. -/
def get_latest_assessment_results (db : DB) (user_id : Nat) :
    Except ResultsError AssessmentResult :=
  match latestSubmittedSession db user_id with
  | none => .error .noAssessmentFound
  | some session => .ok (calculate_assessment_results db session)

/-! ## Course recommendation track (`services/recommendation_engine.py`) -/

/-- Count of subject answers whose joined question has the given difficulty. -/
def countWithDifficulty (db : DB) (answers : List AssessmentAnswer)
    (d : QuestionDifficulty) : Nat :=
  (answers.filter (fun a => answerQuestionDifficulty db a == some d)).length

/-- `RecommendationEngine._identify_weaknesses`. -/
def identify_weaknesses (db : DB) (answers : List AssessmentAnswer) : List String :=
  let incorrect := answers.filter (fun a => !a.is_correct)
  if incorrect.isEmpty then ["No specific weaknesses identified"]
  else
    let easy_incorrect := countWithDifficulty db incorrect .easy
    let medium_incorrect := countWithDifficulty db incorrect .medium
    let hard_incorrect := countWithDifficulty db incorrect .hard
    let easy_total := countWithDifficulty db answers .easy
    let ws :=
      (if easy_incorrect > 0 then ["Basic concepts"] else [])
        ++ (if medium_incorrect > 0 then ["Intermediate problem solving"] else [])
        ++ (if hard_incorrect > 0 then ["Advanced concepts"] else [])
        ++ (if (easy_incorrect : ℚ) > (easy_total : ℚ) * (1/2)
            then ["Fundamental understanding"] else [])
    if ws.isEmpty then ["General concepts"] else ws

/-- One value of the `subject_performance` dict built by
`RecommendationEngine._analyze_subject_performance`. -/
structure SubjectPerformance where
  subject_name : String
  percent_correct : ℚ
  weighted_score : Nat
  performance_level : String
  recommended_level : CourseLevel
  weaknesses : List String
  easy_count : Nat
  medium_count : Nat
  hard_count : Nat
deriving DecidableEq, Repr

/-- Per-subject body of `_analyze_subject_performance` (missing subject rows
and subjects without answers are skipped). -/
def analyzeSubjectPerformanceFor (db : DB) (session : AssessmentSession) (sid : Nat) :
    Option SubjectPerformance :=
  match findSubject db sid with
  | none => none
  | some subject =>
    let sAnswers := subjectAnswers db session.id sid
    if sAnswers.isEmpty then none
    else
      let total := sAnswers.length
      let correct := sAnswers.filter (fun a => a.is_correct)
      let percent : ℚ := ((correct.length : ℚ) / (total : ℚ)) * 100
      some
        { subject_name := subject.name
          percent_correct := pythonRound1 percent
          weighted_score := weightedScoreAnalysis db sAnswers
          performance_level := calculate_performance_level percent
          recommended_level := get_recommended_level percent
          weaknesses := identify_weaknesses db sAnswers
          easy_count := countWithDifficulty db sAnswers .easy
          medium_count := countWithDifficulty db sAnswers .medium
          hard_count := countWithDifficulty db sAnswers .hard }

/-- `RecommendationEngine._analyze_subject_performance`. -/
def analyze_subject_performance (db : DB) (session : AssessmentSession) :
    List (Nat × SubjectPerformance) :=
  session.selected_subject_ids.filterMap (fun sid =>
    (analyzeSubjectPerformanceFor db session sid).map (fun p => (sid, p)))

/-- One entry of the `recommendations` list built by
`_generate_recommendations` / `_get_fallback_recommendations`. -/
structure CourseRecommendation where
  subject : String
  weakness : String
  performance_level : String
  percent_correct : ℚ
  recommended_courses : List Course
deriving DecidableEq, Repr

/-- `RecommendationEngine._generate_recommendations`. -/
def generate_recommendations (db : DB) (perf : List (Nat × SubjectPerformance))
    (num : Nat) : List CourseRecommendation :=
  perf.map (fun sp =>
    { subject := sp.2.subject_name
      weakness := String.intercalate ", " sp.2.weaknesses
      performance_level := sp.2.performance_level
      percent_correct := sp.2.percent_correct
      recommended_courses := recommendedCoursesRec db sp.1 sp.2.recommended_level num })

/-- Return value of `get_course_recommendations`. -/
structure RecommendationsOutput where
  student_id : Option Nat
  student_name : String
  recommendations : List CourseRecommendation
deriving DecidableEq, Repr

/-- `RecommendationEngine._get_fallback_recommendations`: beginner courses per
subject (any course of the subject when there are none), `LIMIT num`. -/
def get_fallback_course_recommendations (db : DB) (num : Nat) : RecommendationsOutput :=
  { student_id := none
    student_name := "Unknown"
    recommendations := db.subjects.map (fun subject =>
      let courses := (coursesAtLevel db subject.id .beginner).take num
      let courses := if courses.isEmpty then (coursesForSubject db subject.id).take num
                     else courses
      { subject := subject.name
        weakness := "No assessment data available"
        performance_level := "unknown"
        percent_correct := 0
        recommended_courses := courses }) }

/-- `RecommendationEngine.get_course_recommendations`: the whole body sits in a
`try`/`except` whose handler returns the fallback output, so a missing student
row (an internal `ValueError`) and a missing submitted session both produce the
fallback rather than an error. -/
def get_course_recommendations (db : DB) (student_id : Nat) (num : Nat) :
    RecommendationsOutput :=
  match db.users.find? (fun u => u.id == student_id) with
  | none => get_fallback_course_recommendations db num
  | some student =>
    match latestSubmittedSession db student_id with
    | none => get_fallback_course_recommendations db num
    | some session =>
      { student_id := some student_id
        student_name := student.username
        recommendations :=
          generate_recommendations db (analyze_subject_performance db session) num }

/-! ## Topic recommendation track (`ai/recommendation.py`) -/

/-- One value of a `topic_performances` dict (only the key the engine reads). -/
structure TopicPerformance where
  accuracy_rate : Option ℚ
deriving DecidableEq, Repr

/-- The untyped performance-profile dict: a missing key is `none` and every
`.get(key, default)` in the source becomes `Option.getD`. -/
structure UserPerformance where
  overall_score : Option ℚ
  accuracy_rate : Option ℚ
  topic_performances : List (String × TopicPerformance)
deriving DecidableEq, Repr

/-- One value of the `topic_features` table. -/
structure TopicFeatures where
  difficulty : ℚ
  prerequisites : List String
  related_topics : List String
  category : String
  popularity : ℚ
deriving DecidableEq, Repr

/-- The sample feature table built by the engine constructor. -/
def topic_features : List (String × TopicFeatures) :=
  [ ("database",
      { difficulty := 3, prerequisites := ["sql", "data_structures"]
        related_topics := ["sql", "normalization", "indexing"]
        category := "data_management", popularity := 0.8 })
  , ("algorithms",
      { difficulty := 4, prerequisites := ["programming", "mathematics"]
        related_topics := ["sorting", "searching", "dynamic_programming"]
        category := "computer_science", popularity := 0.9 })
  , ("networks",
      { difficulty := 3, prerequisites := ["computer_basics"]
        related_topics := ["tcp_ip", "osi_model", "routing"]
        category := "systems", popularity := 0.7 })
  , ("dynamic_programming",
      { difficulty := 5, prerequisites := ["algorithms", "recursion"]
        related_topics := ["memoization", "optimization", "algorithms"]
        category := "computer_science", popularity := 0.6 })
  , ("oop",
      { difficulty := 2, prerequisites := ["programming"]
        related_topics := ["classes", "inheritance", "polymorphism"]
        category := "programming", popularity := 0.8 })
  , ("operating_systems",
      { difficulty := 4, prerequisites := ["computer_basics", "algorithms"]
        related_topics := ["processes", "memory", "file_systems"]
        category := "systems", popularity := 0.7 })
  , ("coding_practice",
      { difficulty := 2, prerequisites := ["programming"]
        related_topics := ["problem_solving", "algorithms", "data_structures"]
        category := "programming", popularity := 0.9 }) ]

/-- `list(self.topic_features.keys())`. -/
def topicNames : List String := topic_features.map (fun tf => tf.1)

/-- Lookup in the feature table. -/
def featureOf (t : String) : Option TopicFeatures :=
  (topic_features.find? (fun tf => tf.1 == t)).map (fun tf => tf.2)

/-- Off-diagonal entry of `_calculate_topic_similarity`: the average of the
category similarity (1.0 same category, 0.3 otherwise) and the difficulty
similarity `max(0, 1 - |d1 - d2| / 5)`. -/
def similarityEntry (f1 f2 : TopicFeatures) : ℚ :=
  let category_sim : ℚ := if f1.category == f2.category then 1 else 0.3
  let difficulty_sim : ℚ := max 0 (1 - |f1.difficulty - f2.difficulty| / 5)
  (category_sim + difficulty_sim) / 2

/-- `self.topic_similarity_matrix`: the 7 x 7 numpy array the constructor
builds (`some`, since `np.zeros` cannot fail and the except branch that sets
it to `None` is never taken). -/
def topic_similarity_matrix : Option (List (List ℚ)) :=
  some (topic_features.enum.map (fun itf =>
    topic_features.enum.map (fun jtf =>
      if itf.1 == jtf.1 then 1 else similarityEntry itf.2.2 jtf.2.2)))

/-- Internal exceptions of the topic engine. -/
inductive PyError
  | valueError
deriving DecidableEq, Repr

/-- Python truthiness of `not self.topic_similarity_matrix`: `not None` is
true; for a numpy array, an empty array is falsy, a one-element array has the
truthiness of its element, and any larger array raises
`ValueError: the truth value of an array with more than one element is
ambiguous`. -/
def npMatrixNot (m? : Option (List (List ℚ))) : Except PyError Bool :=
  match m? with
  | none => .ok true
  | some m =>
    let size := m.flatten.length
    if size = 0 then .ok true
    else if size = 1 then .ok (decide (m.flatten.headD 0 = 0))
    else .error .valueError

/-- `matrix[i][j]` (indices produced by `list.index` are always in range). -/
def matrixEntry (m : List (List ℚ)) (i j : Nat) : ℚ :=
  ((m.getD i []).getD j 0)

/-- `RecommendationEngine._calculate_diversity_score`. -/
def calculate_diversity_score (m? : Option (List (List ℚ))) (topic : String)
    (topic_performances : List (String × TopicPerformance)) : Except PyError ℚ := do
  let nb ← npMatrixNot m?
  if nb || (featureOf topic).isNone then return 0.5
  else
    if topic ∉ topicNames then return 0.5
    else
      let m := m?.getD []
      let topic_idx := topicNames.indexOf topic
      let studied_topics := topic_performances.map (fun tp => tp.1)
      if studied_topics.isEmpty then return 1
      else
        let similarities := studied_topics.filterMap (fun st =>
          if st ∈ topicNames then some (matrixEntry m topic_idx (topicNames.indexOf st))
          else none)
        if !similarities.isEmpty then
          let avg_similarity := similarities.sum / (similarities.length : ℚ)
          return max 0 (1 - avg_similarity)
        else return 0.5

/-- `RecommendationEngine._calculate_prerequisite_score`: fraction of
prerequisites with recorded accuracy at least 0.7; 1.0 without prerequisites. -/
def calculate_prerequisite_score (prerequisites : List String)
    (topic_performances : List (String × TopicPerformance)) : ℚ :=
  if prerequisites.isEmpty then 1
  else
    let satisfied := (prerequisites.filter (fun p =>
      match topic_performances.find? (fun tp => tp.1 == p) with
      | some tp => decide (tp.2.accuracy_rate.getD 0 ≥ 0.7)
      | none => false)).length
    (satisfied : ℚ) / (prerequisites.length : ℚ)

/-- `RecommendationEngine._calculate_topic_score`:
`0.3·popularity + 0.4·difficulty_match + 0.2·prerequisite + 0.1·diversity`. -/
def calculate_topic_score (m? : Option (List (List ℚ))) (topic : String)
    (features : TopicFeatures) (topic_performances : List (String × TopicPerformance))
    (up : UserPerformance) : Except PyError ℚ := do
  let score0 : ℚ := features.popularity * 0.3
  let user_level : ℚ := (up.overall_score.getD 0.5) * 5
  let difficulty_match : ℚ := 1 - |features.difficulty - user_level| / 5
  let score1 := score0 + difficulty_match * 0.4
  let prereq_score := calculate_prerequisite_score features.prerequisites topic_performances
  let score2 := score1 + prereq_score * 0.2
  let diversity_score ← calculate_diversity_score m? topic topic_performances
  return score2 + diversity_score * 0.1

/-- One entry of the list returned by `get_topic_recommendations`. -/
structure TopicRecommendation where
  topic : String
  score : ℚ
  difficulty : ℚ
  category : String
  prerequisites : List String
  related_topics : List String
deriving DecidableEq, Repr

/-- Body of the `try` block of `get_topic_recommendations`: score every topic
of the feature table, sort descending by score (stable), drop topics already
mastered (`accuracy_rate >= 0.9`), and truncate to the requested count. -/
def tryTopicRecommendations (up : UserPerformance) (num : Nat) :
    Except PyError (List TopicRecommendation) := do
  let topic_performances := up.topic_performances
  let topic_scores ← topic_features.mapM (fun tf => do
    let s ← calculate_topic_score topic_similarity_matrix tf.1 tf.2 topic_performances up
    return { topic := tf.1, score := s, difficulty := tf.2.difficulty
             category := tf.2.category, prerequisites := tf.2.prerequisites
             related_topics := tf.2.related_topics : TopicRecommendation })
  let sorted := topic_scores.mergeSort (fun a b => decide (b.score ≤ a.score))
  return (sorted.filter (fun r =>
    match topic_performances.find? (fun tp => tp.1 == r.topic) with
    | some tp => decide (tp.2.accuracy_rate.getD 0 < 0.9)
    | none => true)).take num

/-- `RecommendationEngine._get_fallback_recommendations`: the hardcoded
two-entry list. -/
def fallbackTopicRecommendations : List TopicRecommendation :=
  [ { topic := "database", score := 0.8, difficulty := 3
      category := "data_management"
      prerequisites := ["sql", "data_structures"]
      related_topics := ["sql", "normalization", "indexing"] }
  , { topic := "algorithms", score := 0.7, difficulty := 4
      category := "computer_science"
      prerequisites := ["programming", "mathematics"]
      related_topics := ["sorting", "searching", "dynamic_programming"] } ]

/-- `RecommendationEngine.get_topic_recommendations`: runs the scoring body
inside `try`/`except` and returns the hardcoded fallback on any exception. -/
def get_topic_recommendations (user_id : Nat) (up : UserPerformance) (num : Nat) :
    List TopicRecommendation :=
  match tryTopicRecommendations up num with
  | .ok l => l
  | .error _ => fallbackTopicRecommendations

/-! ## Adaptive quiz engine (`ai/adaptive_quiz.py`) -/

/-- `AdaptiveQuizEngine.predict_difficulty_adjustment`: 1.2 when both scores
exceed 0.8, else 0.8 when either falls below 0.4, else 1.0; missing keys
default to 0.5.  (The surrounding `try`/`except` is dead: the body cannot
raise.) -/
def predict_difficulty_adjustment (up : UserPerformance) : ℚ :=
  let overall_score := up.overall_score.getD 0.5
  let accuracy_rate := up.accuracy_rate.getD 0.5
  if overall_score > 0.8 ∧ accuracy_rate > 0.8 then 1.2
  else if overall_score < 0.4 ∨ accuracy_rate < 0.4 then 0.8
  else 1

/-! ## HTTP response schemas (`schemas/assessment.py`, `api/.../assessment.py`) -/

/-- `QuestionResponse` pydantic schema: the exact field set serialized to the
client when an assessment starts.  There is no `correct_index` field. -/
structure QuestionResponse where
  id : Nat
  subject_id : Nat
  text : String
  options : List String
  difficulty : QuestionDifficulty
deriving DecidableEq, Repr

/-- Serialization of one `Question` row through `QuestionResponse`
(`from_attributes = True`: each declared field is copied from the row). -/
def toQuestionResponse (q : Question) : QuestionResponse :=
  { id := q.id, subject_id := q.subject_id, text := q.text
    options := q.options, difficulty := q.difficulty }

/-- `AssessmentStartResponse` pydantic schema. -/
structure AssessmentStartResponse where
  session_id : Nat
  questions : List QuestionResponse
deriving DecidableEq, Repr

/-- Response constructed by the `start_assessment` endpoint. -/
def startAssessmentResponse (session_id : Nat) (qs : List Question) :
    AssessmentStartResponse :=
  { session_id := session_id, questions := qs.map toQuestionResponse }

/-! ## Concrete databases used by witnesses and counterexamples -/

/-- A subject with one hard question, answered incorrectly, in a submitted
session: separates the two weighted-score loops. -/
def dbWrongWeight : DB :=
  { users := [{ id := 1, username := "alice" }]
    subjects := [{ id := 1, name := "Math" }]
    questions := [{ id := 10, subject_id := 1, text := "q", options := ["a", "b"]
                    correct_index := 0, difficulty := .hard }]
    courses := []
    sessions := [{ id := 1, user_id := 1, created_at := 0, status := .submitted
                   selected_subject_ids := [1], num_questions_per_subject := 1 }]
    answers := [{ session_id := 1, question_id := 10, selected_index := 1
                  is_correct := false }] }

/-- The session row of `dbWrongWeight`. -/
def sessWrongWeight : AssessmentSession :=
  { id := 1, user_id := 1, created_at := 0, status := .submitted
    selected_subject_ids := [1], num_questions_per_subject := 1 }

/-- Subject 1 has one beginner and one advanced course and no intermediate
course; subject 2 has no courses at all. -/
def dbC4 : DB :=
  { users := [], subjects := [{ id := 1, name := "Math" }, { id := 2, name := "Art" }]
    questions := []
    courses := [{ id := 1, subject_id := 1, title := "B", level := .beginner }
              , { id := 2, subject_id := 1, title := "A", level := .advanced }]
    sessions := [], answers := [] }

/-- An active session owned by user 2 (foreign to the user 1 of the submit
scenario), over a subject with a single known question with id 10. -/
def dbForeign : DB :=
  { users := [{ id := 1, username := "alice" }, { id := 2, username := "bob" }]
    subjects := [{ id := 1, name := "Math" }]
    questions := [{ id := 10, subject_id := 1, text := "q", options := ["a", "b"]
                    correct_index := 0, difficulty := .easy }]
    courses := []
    sessions := [{ id := 1, user_id := 2, created_at := 0, status := .active
                   selected_subject_ids := [1], num_questions_per_subject := 1 }]
    answers := [] }

/-- `dbForeign` after its only session has already been submitted. -/
def dbAlreadySubmitted : DB :=
  { dbForeign with
    sessions := [{ id := 1, user_id := 2, created_at := 0, status := .submitted
                   selected_subject_ids := [1], num_questions_per_subject := 1 }] }

/-- A user with no assessment session at all, and one beginner course. -/
def dbNoAssess : DB :=
  { users := [{ id := 1, username := "alice" }]
    subjects := [{ id := 1, name := "Math" }]
    questions := []
    courses := [{ id := 1, subject_id := 1, title := "Intro", level := .beginner }]
    sessions := [], answers := [] }

/-- Questions differing only in `subject_id`. -/
def qSubjA : Question :=
  { id := 1, subject_id := 1, text := "t", options := ["a", "b"]
    correct_index := 0, difficulty := .easy }

/-- Same question row except for `subject_id`. -/
def qSubjB : Question := { qSubjA with subject_id := 2 }

/-! ## Helper lemmas -/

/-- One loop iteration adds the weight of the answer's question (0 when the
question row is missing). -/
theorem weightedStep_eq (db : DB) (acc : Nat) (a : AssessmentAnswer) :
    weightedStep db acc a
      = acc + ((answerQuestionDifficulty db a).map difficultyWeight).getD 0 := by
  unfold weightedStep
  cases h : answerQuestionDifficulty db a with
  | none => simp
  | some d => cases d <;> simp [difficultyWeight]

/-- Both weighted-score loops are `acc + Σ weight(difficulty)` over their input
list. -/
theorem weightedFold_eq (db : DB) (l : List AssessmentAnswer) (acc : Nat) :
    l.foldl (weightedStep db) acc
    = acc + (l.filterMap (fun a =>
        (answerQuestionDifficulty db a).map difficultyWeight)).sum := by
  induction l generalizing acc with
  | nil => simp
  | cons a l ih =>
    rw [List.foldl_cons, ih, weightedStep_eq, List.filterMap_cons]
    cases h : answerQuestionDifficulty db a with
    | none => simp [h]
    | some d => simp [h]; omega

/-- The scoring-path loop computes the per-correct-answer weighted sum. -/
theorem weightedScoreScoring_eq (db : DB) (answers : List AssessmentAnswer) :
    weightedScoreScoring db answers = specWeightPerCorrectAnswer db answers := by
  unfold weightedScoreScoring specWeightPerCorrectAnswer
  rw [weightedFold_eq]
  simp

/-- The analysis-path loop computes the per-answer weighted sum. -/
theorem weightedScoreAnalysis_eq (db : DB) (answers : List AssessmentAnswer) :
    weightedScoreAnalysis db answers = specWeightPerAnswer db answers := by
  unfold weightedScoreAnalysis specWeightPerAnswer
  rw [weightedFold_eq]
  simp

/-- The diversity computation always raises: `not` of the engine's 7 x 7
similarity matrix is the ambiguous-truth-value `ValueError`. -/
theorem calculate_diversity_score_error (topic : String)
    (tp : List (String × TopicPerformance)) :
    calculate_diversity_score topic_similarity_matrix topic tp = .error .valueError := rfl

/-- Hence every topic score raises. -/
theorem calculate_topic_score_error (topic : String) (features : TopicFeatures)
    (tp : List (String × TopicPerformance)) (up : UserPerformance) :
    calculate_topic_score topic_similarity_matrix topic features tp up
      = .error .valueError := rfl

/-- Hence the whole scoring body raises. -/
theorem tryTopicRecommendations_error (up : UserPerformance) (num : Nat) :
    tryTopicRecommendations up num = .error .valueError := rfl

/-- Case analysis of the shared level-threshold mapping. -/
theorem levelOfPercent_cases (p : ℚ) :
    (levelOfPercentAssessment p = .beginner ↔ p ≤ 40)
    ∧ (levelOfPercentAssessment p = .intermediate ↔ 40 < p ∧ p ≤ 70)
    ∧ (levelOfPercentAssessment p = .advanced ↔ 70 < p) := by
  unfold levelOfPercentAssessment
  by_cases h1 : p ≤ 40
  · rw [if_pos h1]
    exact ⟨⟨fun _ => h1, fun _ => rfl⟩,
      ⟨fun h => CourseLevel.noConfusion h, fun h => absurd h1 (not_le.mpr h.1)⟩,
      ⟨fun h => CourseLevel.noConfusion h,
       fun h => absurd h1 (not_le.mpr (lt_trans (by norm_num) h))⟩⟩
  · by_cases h2 : p ≤ 70
    · rw [if_neg h1, if_pos h2]
      exact ⟨⟨fun h => CourseLevel.noConfusion h, fun h => absurd h h1⟩,
        ⟨fun _ => ⟨lt_of_not_le h1, h2⟩, fun _ => rfl⟩,
        ⟨fun h => CourseLevel.noConfusion h, fun h => absurd h2 (not_le.mpr h)⟩⟩
    · rw [if_neg h1, if_neg h2]
      exact ⟨⟨fun h => CourseLevel.noConfusion h, fun h => absurd h h1⟩,
        ⟨fun h => CourseLevel.noConfusion h, fun h => absurd h.2 h2⟩,
        ⟨fun _ => lt_of_not_le h2, fun _ => rfl⟩⟩

/-! ## Claim theorems -/

/-- C1 (corrected): the scoring path (`calculate_assessment_results`) reports
`Σ weight(difficulty)` over the subject's correct answers, while the
recommendation analysis path (`_analyze_subject_performance`) reports
`Σ weight(difficulty)` over every recorded answer of the subject, correct or
not. -/
theorem mentormind_C1_weighted_scores :
    (∀ (db : DB) (answers : List AssessmentAnswer),
      weightedScoreScoring db answers = specWeightPerCorrectAnswer db answers
      ∧ weightedScoreAnalysis db answers = specWeightPerAnswer db answers)
    ∧ (∀ (db : DB) (session : AssessmentSession) (sid : Nat),
        (calculateSubjectResult db session sid).map (fun r => r.weighted_score)
          = (calculateSubjectResult db session sid).map (fun _ =>
              specWeightPerCorrectAnswer db (subjectAnswers db session.id sid)))
    ∧ (∀ (db : DB) (session : AssessmentSession) (sid : Nat),
        (analyzeSubjectPerformanceFor db session sid).map (fun p => p.weighted_score)
          = (analyzeSubjectPerformanceFor db session sid).map (fun _ =>
              specWeightPerAnswer db (subjectAnswers db session.id sid))) := by
  refine ⟨fun db answers => ⟨weightedScoreScoring_eq db answers,
    weightedScoreAnalysis_eq db answers⟩, ?_, ?_⟩
  · intro db session sid
    unfold calculateSubjectResult
    cases findSubject db sid with
    | none => rfl
    | some subject =>
      by_cases he : (subjectAnswers db session.id sid).isEmpty <;>
        simp [he, weightedScoreScoring_eq]
  · intro db session sid
    unfold analyzeSubjectPerformanceFor
    cases findSubject db sid with
    | none => rfl
    | some subject =>
      by_cases he : (subjectAnswers db session.id sid).isEmpty <;>
        simp [he, weightedScoreAnalysis_eq]

/-- C1 counterexample: one hard question answered incorrectly.  The analysis
path reports weighted_score 3 although the per-correct-answer sum is 0 (which
is what the scoring path reports), so the two paths do not both equal the
claimed sum over correct answers. -/
theorem mentormind_C1_counterexample :
    (analyzeSubjectPerformanceFor dbWrongWeight sessWrongWeight 1).map
        (fun p => p.weighted_score) = some 3
    ∧ specWeightPerCorrectAnswer dbWrongWeight
        (subjectAnswers dbWrongWeight sessWrongWeight.id 1) = 0
    ∧ (calculateSubjectResult dbWrongWeight sessWrongWeight 1).map
        (fun r => r.weighted_score) = some 0 := by
  refine ⟨rfl, rfl, rfl⟩

/-- C2 (confirmed): both level mappings agree and map `p ≤ 40` to beginner,
`40 < p ≤ 70` to intermediate and `p > 70` to advanced; in particular 40.0 is
beginner, 40.1 intermediate, 70.0 intermediate and 70.1 advanced. -/
theorem mentormind_C2_level_boundaries :
    (∀ p : ℚ, levelOfPercentAssessment p = get_recommended_level p)
    ∧ (∀ p : ℚ,
        (levelOfPercentAssessment p = .beginner ↔ p ≤ 40)
        ∧ (levelOfPercentAssessment p = .intermediate ↔ 40 < p ∧ p ≤ 70)
        ∧ (levelOfPercentAssessment p = .advanced ↔ 70 < p))
    ∧ levelOfPercentAssessment ((40 : ℚ)) = .beginner
    ∧ levelOfPercentAssessment ((401 : ℚ)/10) = .intermediate
    ∧ levelOfPercentAssessment ((70 : ℚ)) = .intermediate
    ∧ levelOfPercentAssessment ((701 : ℚ)/10) = .advanced := by
  refine ⟨fun p => rfl, levelOfPercent_cases, ?_, ?_, ?_, ?_⟩ <;>
    simp only [levelOfPercentAssessment] <;> norm_num

/-- C6 (code_bug): `_calculate_diversity_score` evaluates
`not self.topic_similarity_matrix` on the engine's 7 x 7 numpy array, which
raises the ambiguous-truth-value ValueError; the exception aborts every scoring
run, so `get_topic_recommendations` never assigns any topic the weighted score
and every call returns the hardcoded two-entry fallback list instead. -/
theorem mentormind_C6_topic_scoring_raises :
    npMatrixNot topic_similarity_matrix = .error .valueError
    ∧ (∀ (user_id : Nat) (up : UserPerformance) (num : Nat),
        get_topic_recommendations user_id up num = fallbackTopicRecommendations)
    ∧ fallbackTopicRecommendations.length = 2 := by
  refine ⟨rfl, fun uid up num => ?_, rfl⟩
  unfold get_topic_recommendations
  rw [tryTopicRecommendations_error]

/-- C8 (confirmed): the adaptive difficulty adjustment is 1.2 exactly when both
scores exceed 0.8, 0.8 exactly when that fails and either score falls below
0.4, and 1.0 otherwise, with missing keys defaulting to 0.5; the three
Scenario D profiles return 1.2, 0.8 and 1.0. -/
theorem mentormind_C8_difficulty_adjustment :
    (∀ up : UserPerformance,
      (predict_difficulty_adjustment up = 1.2 ↔
        up.overall_score.getD 0.5 > 0.8 ∧ up.accuracy_rate.getD 0.5 > 0.8)
      ∧ (predict_difficulty_adjustment up = 0.8 ↔
          ¬(up.overall_score.getD 0.5 > 0.8 ∧ up.accuracy_rate.getD 0.5 > 0.8)
          ∧ (up.overall_score.getD 0.5 < 0.4 ∨ up.accuracy_rate.getD 0.5 < 0.4))
      ∧ (predict_difficulty_adjustment up = 1 ↔
          ¬(up.overall_score.getD 0.5 > 0.8 ∧ up.accuracy_rate.getD 0.5 > 0.8)
          ∧ ¬(up.overall_score.getD 0.5 < 0.4 ∨ up.accuracy_rate.getD 0.5 < 0.4)))
    ∧ predict_difficulty_adjustment { overall_score := some 0.9, accuracy_rate := some 0.85, topic_performances := [] } = 1.2
    ∧ predict_difficulty_adjustment { overall_score := some 0.3, accuracy_rate := some 0.2, topic_performances := [] } = 0.8
    ∧ predict_difficulty_adjustment { overall_score := some 0.6, accuracy_rate := some 0.6, topic_performances := [] } = 1
    ∧ predict_difficulty_adjustment { overall_score := none, accuracy_rate := none, topic_performances := [] } = 1 := by
  refine ⟨fun up => ?_, ?_, ?_, ?_, ?_⟩
  · unfold predict_difficulty_adjustment
    by_cases h1 : up.overall_score.getD 0.5 > 0.8 ∧ up.accuracy_rate.getD 0.5 > 0.8
    · rw [if_pos h1]
      exact ⟨⟨fun _ => h1, fun _ => rfl⟩,
        ⟨fun h => absurd h (by norm_num), fun h => absurd h1 h.1⟩,
        ⟨fun h => absurd h (by norm_num), fun h => absurd h1 h.1⟩⟩
    · by_cases h2 : up.overall_score.getD 0.5 < 0.4 ∨ up.accuracy_rate.getD 0.5 < 0.4
      · rw [if_neg h1, if_pos h2]
        exact ⟨⟨fun h => absurd h (by norm_num), fun h => absurd h h1⟩,
          ⟨fun _ => ⟨h1, h2⟩, fun _ => rfl⟩,
          ⟨fun h => absurd h (by norm_num), fun h => absurd h2 h.2⟩⟩
      · rw [if_neg h1, if_neg h2]
        exact ⟨⟨fun h => absurd h (by norm_num), fun h => absurd h h1⟩,
          ⟨fun h => absurd h (by norm_num), fun h => absurd h.2 h2⟩,
          ⟨fun _ => ⟨h1, h2⟩, fun _ => rfl⟩⟩
  all_goals simp only [predict_difficulty_adjustment, Option.getD_some, Option.getD_none]
  all_goals norm_num

/-- C9 counterexample: `QuestionResponse` also serializes `subject_id`; two
question rows agreeing on id, text, options and difficulty but with different
subject ids serialize differently, so the start payload carries more than the
four claimed fields. -/
theorem mentormind_C9_counterexample :
    qSubjA.id = qSubjB.id ∧ qSubjA.text = qSubjB.text
    ∧ qSubjA.options = qSubjB.options ∧ qSubjA.difficulty = qSubjB.difficulty
    ∧ toQuestionResponse qSubjA ≠ toQuestionResponse qSubjB := by
  refine ⟨rfl, rfl, rfl, rfl, ?_⟩
  intro h
  have := congrArg (fun r => r.subject_id) h
  simp [toQuestionResponse, qSubjA, qSubjB] at this

/-- C9 (corrected): each serialized question carries only id, subject_id, text,
options and difficulty, and never the correct index: the start response is
invariant under arbitrary changes of the questions' correct_index values. -/
theorem mentormind_C9_no_correct_index :
    (∀ (q : Question) (c : Nat),
      toQuestionResponse { q with correct_index := c } = toQuestionResponse q)
    ∧ (∀ (session_id : Nat) (qs : List Question) (f : Question → Nat),
      startAssessmentResponse session_id
          (qs.map (fun q => { q with correct_index := f q }))
        = startAssessmentResponse session_id qs) := by
  refine ⟨fun q c => rfl, fun sid qs f => ?_⟩
  unfold startAssessmentResponse
  rw [List.map_map]
  rfl

/-- C10 (confirmed): `get_topic_recommendations` never propagates an internal
exception: the result is the successful body result or, on any internal error,
the hardcoded two-element fallback list. -/
theorem mentormind_C10_exception_fallback :
    ∀ (user_id : Nat) (up : UserPerformance) (num : Nat),
      (∃ l, tryTopicRecommendations up num = .ok l
            ∧ get_topic_recommendations user_id up num = l)
      ∨ (∃ e, tryTopicRecommendations up num = .error e
            ∧ get_topic_recommendations user_id up num = fallbackTopicRecommendations) := by
  intro uid up num
  cases h : tryTopicRecommendations up num with
  | ok l => exact Or.inl ⟨l, rfl, by unfold get_topic_recommendations; rw [h]⟩
  | error e => exact Or.inr ⟨e, rfl, by unfold get_topic_recommendations; rw [h]⟩

/-- Modelled from the claim: the fallback level each mapped level tries
(beginner and advanced try intermediate, intermediate tries beginner). -/
def claimFallbackLevel : CourseLevel → CourseLevel
  | .beginner => .intermediate
  | .intermediate => .beginner
  | .advanced => .intermediate

/-- First non-empty list of a candidate sequence (empty when all are empty). -/
def firstNonempty (ls : List (List Course)) : List Course :=
  match ls.find? (fun l => !l.isEmpty) with
  | some l => l
  | none => []

/-- Modelled from the claim: mapped level, then the claimed fallback level,
then any courses of the subject capped at 3 (the assessment call site). -/
def claimCourseChainAssessment (db : DB) (sid : Nat) (level : CourseLevel) : List Course :=
  firstNonempty [coursesAtLevel db sid level,
                 coursesAtLevel db sid (claimFallbackLevel level),
                 (coursesForSubject db sid).take 3]

/-- Modelled from the claim: the same chain with every query capped at `num`
(the recommendation-engine call site). -/
def claimCourseChainRec (db : DB) (sid : Nat) (level : CourseLevel) (num : Nat) : List Course :=
  firstNonempty [(coursesAtLevel db sid level).take num,
                 (coursesAtLevel db sid (claimFallbackLevel level)).take num,
                 (coursesForSubject db sid).take num]

/-- The `(subject, level)` query is the level-filter of the subject query. -/
theorem coursesAtLevel_eq_filter (db : DB) (sid : Nat) (l : CourseLevel) :
    coursesAtLevel db sid l
      = (coursesForSubject db sid).filter (fun c => c.level == l) := by
  unfold coursesAtLevel coursesForSubject
  rw [List.filter_filter]
  exact List.filter_congr (fun c _ => Bool.and_comm _ _)

/-- Two-step if-chains are firstNonempty over the candidate lists. -/
theorem ifChain_eq_firstNonempty (A B C : List Course) :
    (if !A.isEmpty then A else if !B.isEmpty then B else C)
      = firstNonempty [A, B, C] := by
  unfold firstNonempty
  cases hA : A.isEmpty with
  | false => simp [List.find?, hA]
  | true =>
    cases hB : B.isEmpty with
    | false => simp [List.find?, hA, hB]
    | true =>
      cases hC : C.isEmpty with
      | false => simp [List.find?, hA, hB, hC]
      | true => simp [List.find?, hA, hB, hC, List.isEmpty_iff.mp hC]

/-- Degenerate chain whose second candidate repeats the first. -/
theorem ifChain2_eq_firstNonempty (A C : List Course) :
    (if !A.isEmpty then A else if !A.isEmpty then A else C)
      = firstNonempty [A, C] := by
  unfold firstNonempty
  cases hA : A.isEmpty with
  | false => simp [List.find?, hA]
  | true =>
    cases hC : C.isEmpty with
    | false => simp [List.find?, hA, hC]
    | true => simp [List.find?, hA, hC, List.isEmpty_iff.mp hC]

/-- C4 (corrected): the assessment path follows the claimed chain (beginner
tries intermediate, intermediate tries beginner, advanced tries intermediate,
then any courses capped at 3); the recommendation-engine path follows it only
for beginner and advanced — for intermediate it skips the beginner fallback
and goes straight to the any-courses query capped at `num`; a subject with no
courses yields an empty list on both paths, never an error. -/
theorem mentormind_C4_fallback_chain :
    ∀ (db : DB) (sid : Nat) (level : CourseLevel) (num : Nat),
      recommendedCoursesAssessment db sid level = claimCourseChainAssessment db sid level
      ∧ (level ≠ .intermediate →
          recommendedCoursesRec db sid level num = claimCourseChainRec db sid level num)
      ∧ recommendedCoursesRec db sid .intermediate num
          = firstNonempty [(coursesAtLevel db sid .intermediate).take num,
                           (coursesForSubject db sid).take num]
      ∧ (coursesForSubject db sid = [] →
          recommendedCoursesAssessment db sid level = []
          ∧ recommendedCoursesRec db sid level num = []) := by
  intro db sid level num
  refine ⟨?_, ?_, ?_, ?_⟩
  · cases level <;> exact ifChain_eq_firstNonempty _ _ _
  · intro h
    cases level with
    | intermediate => exact absurd rfl h
    | beginner => exact ifChain_eq_firstNonempty _ _ _
    | advanced => exact ifChain_eq_firstNonempty _ _ _
  · exact ifChain2_eq_firstNonempty _ _
  · intro h
    have hA : ∀ l, coursesAtLevel db sid l = [] := by
      intro l
      rw [coursesAtLevel_eq_filter, h]
      rfl
    constructor
    · cases level <;> simp [recommendedCoursesAssessment, hA, h]
    · cases level <;> simp [recommendedCoursesRec, hA, h]

/-- C4 counterexample: subject 1 of `dbC4` has a beginner and an advanced
course and nothing intermediate.  At the intermediate level the
recommendation-engine path returns both courses (the any-courses query), while
the claimed chain would fall back to the beginner course only. -/
theorem mentormind_C4_counterexample :
    recommendedCoursesRec dbC4 1 .intermediate 5
        ≠ claimCourseChainRec dbC4 1 .intermediate 5
    ∧ recommendedCoursesRec dbC4 1 .intermediate 5
        = [{ id := 1, subject_id := 1, title := "B", level := .beginner },
           { id := 2, subject_id := 1, title := "A", level := .advanced }]
    ∧ claimCourseChainRec dbC4 1 .intermediate 5
        = [{ id := 1, subject_id := 1, title := "B", level := .beginner }] := by
  refine ⟨by decide, rfl, rfl⟩

/-- C4 witness: subject 2 of `dbC4` has no courses, and beginner is not
intermediate; both hypotheses of the amended theorem are dischargeable and the
conclusions evaluate on this input. -/
theorem mentormind_C4_witness :
    (CourseLevel.beginner ≠ CourseLevel.intermediate ∧ coursesForSubject dbC4 2 = [])
    ∧ recommendedCoursesRec dbC4 2 .beginner 5 = claimCourseChainRec dbC4 2 .beginner 5
    ∧ recommendedCoursesAssessment dbC4 2 .beginner = [] :=
  ⟨⟨by decide, by decide⟩,
   (mentormind_C4_fallback_chain dbC4 2 .beginner 5).2.1 (by decide),
   ((mentormind_C4_fallback_chain dbC4 2 .beginner 5).2.2.2 (by decide)).1⟩

/-- Constructor-respecting projection: the persisted answers of a successful
submission. -/
def submitPersistedAnswers (r : Except SubmitError (DB × AssessmentResult)) :
    Option (List AssessmentAnswer) :=
  match r with
  | .ok p => some p.1.answers
  | .error _ => none

/-- Constructor-respecting projection: the session statuses after a successful
submission. -/
def submitSessionStatuses (r : Except SubmitError (DB × AssessmentResult)) :
    Option (List AssessmentStatus) :=
  match r with
  | .ok p => some (p.1.sessions.map (fun s => s.status))
  | .error _ => none

/-- C5 (code_bug): `submit_assessment_answers` resolves the session by id only
— the service receives no user id and the submit endpoint adds no ownership
filter (unlike the results endpoint) — so the active session owned by user 2
is graded and submitted on behalf of any caller instead of failing with
SessionNotFound.  Missing sessions and already-submitted sessions do fail, and
unknown question ids (999 here) are ignored without being persisted. -/
theorem mentormind_C5_foreign_session_submit :
    dbForeign.sessions.map (fun s => s.user_id) = [2]
    ∧ submitPersistedAnswers (submit_assessment_answers dbForeign 1
        [{ question_id := 10, selected_index := 0 },
         { question_id := 999, selected_index := 3 }])
      = some [{ session_id := 1, question_id := 10, selected_index := 0, is_correct := true }]
    ∧ submitSessionStatuses (submit_assessment_answers dbForeign 1
        [{ question_id := 10, selected_index := 0 },
         { question_id := 999, selected_index := 3 }])
      = some [.submitted]
    ∧ submit_assessment_answers dbForeign 999 [] = .error .sessionNotFound
    ∧ submit_assessment_answers dbAlreadySubmitted 1 [] = .error .sessionNotActive := by
  refine ⟨rfl, rfl, rfl, rfl, rfl⟩

/-- C7 (corrected): for a user with no submitted session the assessment-service
path does fail with the NoAssessmentFound error kind, but
`RecommendationEngine.get_course_recommendations` does not fail: it returns the
beginner-course fallback output instead. -/
theorem mentormind_C7_no_assessment :
    ∀ (db : DB) (user_id num : Nat),
      latestSubmittedSession db user_id = none →
        get_latest_assessment_results db user_id = .error .noAssessmentFound
        ∧ get_course_recommendations db user_id num
            = get_fallback_course_recommendations db num := by
  intro db uid num h
  constructor
  · unfold get_latest_assessment_results
    rw [h]
  · unfold get_course_recommendations
    cases db.users.find? (fun u => u.id == uid) with
    | none => rfl
    | some student => rw [h]

/-- C7 counterexample: user 1 of `dbNoAssess` has no session at all, yet the
recommendation-engine path returns a real result — the fallback output
recommending the beginner course — rather than failing with
NoAssessmentFound. -/
theorem mentormind_C7_counterexample :
    get_latest_assessment_results dbNoAssess 1 = .error .noAssessmentFound
    ∧ get_course_recommendations dbNoAssess 1 5
        = get_fallback_course_recommendations dbNoAssess 5
    ∧ (get_course_recommendations dbNoAssess 1 5).recommendations.map
        (fun r => r.recommended_courses)
      = [[{ id := 1, subject_id := 1, title := "Intro", level := .beginner }]] := by
  refine ⟨rfl, rfl, rfl⟩

/-- C7 witness: the amended theorem applied to the concrete `dbNoAssess`. -/
theorem mentormind_C7_witness :
    latestSubmittedSession dbNoAssess 1 = none
    ∧ get_latest_assessment_results dbNoAssess 1 = .error .noAssessmentFound
    ∧ get_course_recommendations dbNoAssess 1 5
        = get_fallback_course_recommendations dbNoAssess 5 :=
  ⟨rfl, (mentormind_C7_no_assessment dbNoAssess 1 5 rfl).1,
    (mentormind_C7_no_assessment dbNoAssess 1 5 rfl).2⟩

/-! ## Sampler lemmas (C3) -/

/-- Membership in the easy stratum. -/
theorem mem_easyBucket {pool : List Question} {q : Question} :
    q ∈ easyBucket pool ↔ q ∈ pool ∧ q.difficulty = .easy := by
  simp [easyBucket, List.mem_filter]

/-- Membership in the medium stratum. -/
theorem mem_mediumBucket {pool : List Question} {q : Question} :
    q ∈ mediumBucket pool ↔ q ∈ pool ∧ q.difficulty = .medium := by
  simp [mediumBucket, List.mem_filter]

/-- Membership in the hard stratum. -/
theorem mem_hardBucket {pool : List Question} {q : Question} :
    q ∈ hardBucket pool ↔ q ∈ pool ∧ q.difficulty = .hard := by
  simp [hardBucket, List.mem_filter]

/-- The two 40% targets leave the remainder to hard, and together stay below n. -/
theorem targetCounts_sum (n : Nat) :
    easyTargetCount n + mediumTargetCount n + hardTargetCount n = n
    ∧ easyTargetCount n + mediumTargetCount n ≤ n := by
  have he : easyTargetCount n = 2 * n / 5 := rfl
  have hm : mediumTargetCount n = 2 * n / 5 := rfl
  have hh : hardTargetCount n = n - easyTargetCount n - mediumTargetCount n := rfl
  omega

/-- Each stratum draw has exactly `min(target, bucket size)` questions. -/
theorem stratum_pick_length (pick : Pick) (hpick : SampleContract pick)
    (xs : List Question) (t : Nat) :
    (pick xs (min t xs.length)).length = min t xs.length :=
  (hpick xs (min t xs.length) (Nat.min_le_right _ _)).1

/-- Every stratified-draw question comes from the pool. -/
theorem stratumSelection_subset (pick : Pick) (hpick : SampleContract pick)
    (pool : List Question) (n : Nat) :
    ∀ q ∈ stratumSelection pick pool n, q ∈ pool := by
  intro q hq
  unfold stratumSelection at hq
  rcases List.mem_append.mp hq with h | h
  · rcases List.mem_append.mp h with h | h
    · exact (mem_easyBucket.mp
        ((hpick (easyBucket pool) _ (Nat.min_le_right _ _)).2.1 q h)).1
    · exact (mem_mediumBucket.mp
        ((hpick (mediumBucket pool) _ (Nat.min_le_right _ _)).2.1 q h)).1
  · exact (mem_hardBucket.mp
      ((hpick (hardBucket pool) _ (Nat.min_le_right _ _)).2.1 q h)).1

/-- The stratified draws are disjoint across difficulties, so their
concatenation has no duplicates. -/
theorem stratumSelection_nodup (pick : Pick) (hpick : SampleContract pick)
    (pool : List Question) (n : Nat) (hnd : pool.Nodup) :
    (stratumSelection pick pool n).Nodup := by
  unfold stratumSelection
  have hE := hpick (easyBucket pool) _ (Nat.min_le_right (easyTargetCount n) _)
  have hM := hpick (mediumBucket pool) _ (Nat.min_le_right (mediumTargetCount n) _)
  have hH := hpick (hardBucket pool) _ (Nat.min_le_right (hardTargetCount n) _)
  refine List.Nodup.append
    (List.Nodup.append (hE.2.2 (hnd.filter _)) (hM.2.2 (hnd.filter _)) ?_)
    (hH.2.2 (hnd.filter _)) ?_
  · intro q hq1 hq2
    have h1 := (mem_easyBucket.mp (hE.2.1 q hq1)).2
    have h2 := (mem_mediumBucket.mp (hM.2.1 q hq2)).2
    rw [h1] at h2
    cases h2
  · intro q hq1 hq2
    have h3 := (mem_hardBucket.mp (hH.2.1 q hq2)).2
    rcases List.mem_append.mp hq1 with h | h
    · have h1 := (mem_easyBucket.mp (hE.2.1 q h)).2
      rw [h1] at h3
      cases h3
    · have h2 := (mem_mediumBucket.mp (hM.2.1 q h)).2
      rw [h2] at h3
      cases h3

/-- The stratified draws together never exceed the requested count. -/
theorem stratumSelection_length_le (pick : Pick) (hpick : SampleContract pick)
    (pool : List Question) (n : Nat) :
    (stratumSelection pick pool n).length ≤ n := by
  unfold stratumSelection
  rw [List.length_append, List.length_append,
    stratum_pick_length pick hpick, stratum_pick_length pick hpick,
    stratum_pick_length pick hpick]
  have he : easyTargetCount n = 2 * n / 5 := rfl
  have hm : mediumTargetCount n = 2 * n / 5 := rfl
  have hh : hardTargetCount n = n - easyTargetCount n - mediumTargetCount n := rfl
  have e1 : min (easyTargetCount n) (easyBucket pool).length ≤ easyTargetCount n :=
    Nat.min_le_left _ _
  have e2 : min (mediumTargetCount n) (mediumBucket pool).length ≤ mediumTargetCount n :=
    Nat.min_le_left _ _
  have e3 : min (hardTargetCount n) (hardBucket pool).length ≤ hardTargetCount n :=
    Nat.min_le_left _ _
  omega

/-- At most `sel.length` pool questions are already selected, so the backfill
pool retains at least `pool.length - sel.length` questions. -/
theorem backfillPool_length (pick : Pick) (pool : List Question) (n : Nat)
    (hnd : pool.Nodup) :
    pool.length ≤ (backfillPool pick pool n).length
      + (stratumSelection pick pool n).length := by
  have h1 : pool.length
      = (pool.filter (fun q => (stratumSelection pick pool n).contains q)).length
        + (pool.filter (fun q => !((stratumSelection pick pool n).contains q))).length := by
    have hp := (List.filter_append_perm
      (fun q => (stratumSelection pick pool n).contains q) pool).length_eq
    rw [List.length_append] at hp
    exact hp.symm
  have hsubset : pool.filter (fun q => (stratumSelection pick pool n).contains q)
      ⊆ stratumSelection pick pool n := by
    intro q hq
    have h := (List.mem_filter.mp hq).2
    simpa using h
  have h2 : (pool.filter (fun q => (stratumSelection pick pool n).contains q)).length
      ≤ (stratumSelection pick pool n).length :=
    ((hnd.filter _).subperm hsubset).length_le
  unfold backfillPool
  omega

/-- Every sampled question comes from the pool. -/
theorem withBackfill_subset (pick : Pick) (hpick : SampleContract pick)
    (pool : List Question) (n : Nat) :
    ∀ q ∈ withBackfill pick pool n, q ∈ pool := by
  intro q hq
  simp only [withBackfill] at hq
  split at hq
  · split at hq
    · rcases List.mem_append.mp hq with h | h
      · exact stratumSelection_subset pick hpick pool n q h
      · have hmem := (hpick (backfillPool pick pool n) _ (Nat.min_le_right _ _)).2.1 q h
        exact (List.mem_filter.mp hmem).1
    · exact stratumSelection_subset pick hpick pool n q hq
  · exact stratumSelection_subset pick hpick pool n q hq

/-- The backfilled selection stays duplicate-free: the backfill only draws
questions not already selected. -/
theorem withBackfill_nodup (pick : Pick) (hpick : SampleContract pick)
    (pool : List Question) (n : Nat) (hnd : pool.Nodup) :
    (withBackfill pick pool n).Nodup := by
  simp only [withBackfill]
  split
  · split
    · refine List.Nodup.append (stratumSelection_nodup pick hpick pool n hnd)
        ((hpick (backfillPool pick pool n) _ (Nat.min_le_right _ _)).2.2
          (hnd.filter _)) ?_
      intro q hq1 hq2
      have hmem := (hpick (backfillPool pick pool n) _ (Nat.min_le_right _ _)).2.1 q hq2
      have hnc := (List.mem_filter.mp hmem).2
      simp at hnc
      exact hnc hq1
    · exact stratumSelection_nodup pick hpick pool n hnd
  · exact stratumSelection_nodup pick hpick pool n hnd

/-- When the pool is large enough, backfill brings the selection up to `n`. -/
theorem withBackfill_length_ge (pick : Pick) (hpick : SampleContract pick)
    (pool : List Question) (n : Nat) (hnd : pool.Nodup) (hn : n ≤ pool.length) :
    n ≤ (withBackfill pick pool n).length := by
  have hbp := backfillPool_length pick pool n hnd
  simp only [withBackfill]
  split
  · split
    · rw [List.length_append,
        (hpick (backfillPool pick pool n) _ (Nat.min_le_right _ _)).1]
      omega
    · rename_i hr
      have : (backfillPool pick pool n).isEmpty = true := by
        revert hr
        cases (backfillPool pick pool n).isEmpty <;> simp
      have hlen : (backfillPool pick pool n).length = 0 := by
        rw [List.isEmpty_iff.mp this]
        rfl
      omega
  · omega

/-- C3 (confirmed): under the `random.sample` contract and a duplicate-free
pool, the sampler draws min(⌊0.4n⌋, #easy) easy, min(⌊0.4n⌋, #medium) medium
and min(n − 2⌊0.4n⌋, #hard) hard questions; whenever `n ≤ pool size` the final
selection has exactly `n` distinct pool questions; it never exceeds the pool
size; and an empty pool yields an empty selection. -/
theorem mentormind_C3_stratified_sampler :
    ∀ (pick : Pick), SampleContract pick →
    ∀ (pool : List Question) (n : Nat), pool.Nodup →
      ((pick (easyBucket pool)
          (min (easyTargetCount n) (easyBucket pool).length)).length
          = min (easyTargetCount n) (easyBucket pool).length
        ∧ (pick (mediumBucket pool)
            (min (mediumTargetCount n) (mediumBucket pool).length)).length
          = min (mediumTargetCount n) (mediumBucket pool).length
        ∧ (pick (hardBucket pool)
            (min (hardTargetCount n) (hardBucket pool).length)).length
          = min (hardTargetCount n) (hardBucket pool).length)
      ∧ (n ≤ pool.length →
          (sampleQuestionsForSubject pick pool n).length = n
          ∧ (sampleQuestionsForSubject pick pool n).Nodup
          ∧ ∀ q ∈ sampleQuestionsForSubject pick pool n, q ∈ pool)
      ∧ (sampleQuestionsForSubject pick pool n).length ≤ pool.length
      ∧ (pool = [] → sampleQuestionsForSubject pick pool n = []) := by
  intro pick hpick pool n hnd
  have hsub : ∀ q ∈ sampleQuestionsForSubject pick pool n, q ∈ pool := by
    intro q hq
    exact withBackfill_subset pick hpick pool n q (List.mem_of_mem_take hq)
  have hnodup : (sampleQuestionsForSubject pick pool n).Nodup :=
    (List.take_sublist n _).nodup (withBackfill_nodup pick hpick pool n hnd)
  refine ⟨⟨stratum_pick_length pick hpick _ _, stratum_pick_length pick hpick _ _,
      stratum_pick_length pick hpick _ _⟩, ?_, ?_, ?_⟩
  · intro hn
    refine ⟨?_, hnodup, hsub⟩
    unfold sampleQuestionsForSubject
    rw [List.length_take]
    have h := withBackfill_length_ge pick hpick pool n hnd hn
    omega
  · exact (List.subperm_of_subset hnodup hsub).length_le
  · intro h
    subst h
    cases hs : sampleQuestionsForSubject pick [] n with
    | nil => rfl
    | cons a l =>
      exact absurd (hsub a (hs ▸ List.mem_cons_self a l)) (List.not_mem_nil a)

/-- Deterministic `random.sample` stand-in used by the witness. -/
def takePick : Pick := fun xs k => xs.take k

/-- `List.take` satisfies the `random.sample` contract. -/
theorem takePick_contract : SampleContract takePick := by
  intro xs k hk
  refine ⟨?_, ?_, ?_⟩
  · simp [takePick, List.length_take, Nat.min_eq_left hk]
  · intro q hq
    exact List.mem_of_mem_take hq
  · intro h
    exact (List.take_sublist k xs).nodup h

/-- A three-question pool with one question per difficulty. -/
def demoPool : List Question :=
  [ { id := 1, subject_id := 1, text := "e", options := ["a"]
      correct_index := 0, difficulty := .easy }
  , { id := 2, subject_id := 1, text := "m", options := ["a"]
      correct_index := 0, difficulty := .medium }
  , { id := 3, subject_id := 1, text := "h", options := ["a"]
      correct_index := 0, difficulty := .hard } ]

/-- C3 witness: the sampler theorem applied to `List.take` as the drawing
function and a concrete three-question pool with `n = 2`, plus the empty-pool
case. -/
theorem mentormind_C3_witness :
    (SampleContract takePick ∧ demoPool.Nodup ∧ 2 ≤ demoPool.length)
    ∧ (sampleQuestionsForSubject takePick demoPool 2).length = 2
    ∧ sampleQuestionsForSubject takePick [] 5 = [] :=
  ⟨⟨takePick_contract, by decide, by decide⟩,
    ((mentormind_C3_stratified_sampler takePick takePick_contract demoPool 2
      (by decide)).2.1 (by decide)).1,
    (mentormind_C3_stratified_sampler takePick takePick_contract [] 5
      (by decide)).2.2.2 rfl⟩

end MentorMind
